import Mathlib

/-!
Verification of the `solsim` package: the celestial-body data model
(`solsim/solar_system_objects.py`) and the gravitational force law
(`solsim/gravity.py`).

Python floats are modelled as rationals (`ℚ`), so every definition is
executable and the algebraic claims of the specification can be settled
exactly.  NumPy arrays are modelled as `List ℚ`; the distinction between
a Python scalar argument and an array argument is captured by `PyVal`.
Fallible operations return `Except`.
-/

/-- Configured lower bound on defaulted positions, in AU
(`MINIMUM_SIZE = 0.3` in `solar_system_objects.py`). -/
def MINIMUM_SIZE : ℚ := 0.3

/-- Configured upper bound on defaulted positions, in AU
(`MAXIMUM_SIZE = 50.0`). -/
def MAXIMUM_SIZE : ℚ := 50.0

/-- Configured lower bound on defaulted velocities, in km/s
(`MINIMUM_VELOCITY = 20.0`). -/
def MINIMUM_VELOCITY : ℚ := 20.0

/-- Configured upper bound on defaulted velocities, in km/s
(`MAXIMUM_VELOCITY = 50.0`). -/
def MAXIMUM_VELOCITY : ℚ := 50.0

/-- The gravitational constant, the default for the `G` parameter of
`universal_gravity` (`astropy.constants.G.value = 6.6743e-11`). -/
def G_default : ℚ := 6.6743e-11

/-- Solar mass in kilograms (`astropy.constants.M_sun.value`). -/
def M_sun : ℚ := 1.988409870698051e30

/-- Jupiter mass in kilograms (`astropy.constants.M_jup.value`). -/
def M_jup : ℚ := 1.8981245973360505e27

/-- Earth mass in kilograms (`astropy.constants.M_earth.value`). -/
def M_earth : ℚ := 5.972167867791379e24

/-- Pluto reference mass in kilograms, a literal inside
`DwarfPlanet.__repr__`. -/
def M_pluto : ℚ := 1.309e22

/-- A value passed for `position` or `velocity`: either a Python scalar
(which `np.asarray` turns into a 0-d array of size 1) or an array of
components. -/
inductive PyVal where
  | scalar (x : ℚ)
  | arr (xs : List ℚ)
deriving Repr, DecidableEq

/-- `np.asarray` as it acts on the supplied value, viewed through the
`size`/component lens used by the constructor: a scalar becomes a size-1
(0-d) array, an array is unchanged. -/
def asarray : PyVal → List ℚ
  | .scalar x => [x]
  | .arr xs => xs

/-- Errors raised at construction time.  The spec taxonomy calls the
size-check failure `InvalidVectorShape`; the Python code raises it as a
`TypeError` naming the offending field. -/
inductive InitError where
  | invalidVectorShape (field : String)
deriving Repr, DecidableEq

/-- A fully constructed solar-system body: the four fields assigned by
`SolarSystemObject.__init__`. -/
structure SolarSystemObject where
  mass : ℚ
  position : List ℚ
  velocity : List ℚ
  name : String
deriving Repr, DecidableEq

/-- The partially-assigned attribute state of the object while
`SolarSystemObject.__init__` executes: each field is `none` until the
corresponding `self.<field> = ...` statement has run. -/
structure ObjState where
  mass : Option ℚ := none
  position : Option (List ℚ) := none
  velocity : Option (List ℚ) := none
  name : Option String := none
deriving Repr, DecidableEq

/-- One defaulted vector: `(hi - lo) * np.random.rand(2) + lo`, with the
two uniform draws `u0, u1 ∈ [0,1)` made explicit parameters. -/
def sampleVec (lo hi u0 u1 : ℚ) : List ℚ :=
  [(hi - lo) * u0 + lo, (hi - lo) * u1 + lo]

/-- `SolarSystemObject.__init__`, instrumented with the attribute state
at the moment an error is raised.  The randomness of `np.random.rand`
is made explicit as a stream `rng : ℕ → ℚ` of uniform draws; the second
component of a successful result counts the draws consumed.  Statement
order follows the source: `self.mass` is assigned first; a supplied
`position` is converted with `np.asarray` and assigned before its size
check; then `velocity` likewise; `self.name` is assigned last. -/
def initTrace (mass : ℚ) (position velocity : Option PyVal) (name : String)
    (rng : ℕ → ℚ) : Except (InitError × ObjState) (SolarSystemObject × ℕ) :=
  let s1 : ObjState := { mass := some mass }
  match position with
  | some p =>
      let pa := asarray p
      let s2 : ObjState := { s1 with position := some pa }
      if pa.length < 2 then
        .error (.invalidVectorShape "position", s2)
      else
        match velocity with
        | some v =>
            let va := asarray v
            let s3 : ObjState := { s2 with velocity := some va }
            if va.length < 2 then
              .error (.invalidVectorShape "velocity", s3)
            else
              .ok (⟨mass, pa, va, name⟩, 0)
        | none =>
            .ok (⟨mass, pa,
                  sampleVec MINIMUM_VELOCITY MAXIMUM_VELOCITY (rng 0) (rng 1),
                  name⟩, 2)
  | none =>
      let pa := sampleVec MINIMUM_SIZE MAXIMUM_SIZE (rng 0) (rng 1)
      let s2 : ObjState := { s1 with position := some pa }
      match velocity with
      | some v =>
          let va := asarray v
          let s3 : ObjState := { s2 with velocity := some va }
          if va.length < 2 then
            .error (.invalidVectorShape "velocity", s3)
          else
            .ok (⟨mass, pa, va, name⟩, 2)
      | none =>
          .ok (⟨mass, pa,
                sampleVec MINIMUM_VELOCITY MAXIMUM_VELOCITY (rng 2) (rng 3),
                name⟩, 4)

/-- `SolarSystemObject.__init__` with the partial state at the raise
point erased: the view a caller has of construction. -/
def SolarSystemObject.init (mass : ℚ) (position velocity : Option PyVal)
    (name : String) (rng : ℕ → ℚ) : Except InitError (SolarSystemObject × ℕ) :=
  (initTrace mass position velocity name rng).mapError Prod.fst

/-- The body variants of `solar_system_objects.py`. -/
inductive BodyKind where
  | object | star | planet | gasPlanet | terrestrialPlanet | dwarfPlanet
  | asteroid | comet
deriving Repr, DecidableEq

/-- The default for the `name` parameter of the constructor that Python
actually resolves for each class.  `Planet` (and through it `GasPlanet`,
`TerrestrialPlanet`, `DwarfPlanet`) defines `__index__` instead of
`__init__`, which is not a constructor, so those classes inherit
`SolarSystemObject.__init__` with its default `"Object"`. -/
def defaultName : BodyKind → String
  | .object => "Object"
  | .star => "Star"
  | .planet => "Object"
  | .gasPlanet => "Object"
  | .terrestrialPlanet => "Object"
  | .dwarfPlanet => "Object"
  | .asteroid => "Asteroid"
  | .comet => "Comet"

/-- Construction of a body of a given kind.  `Star.__init__(mass, name)`
takes no position or velocity parameters and calls the base constructor
with `np.zeros(2)` for both; `Asteroid.__init__` and `Comet.__init__`
forward their arguments verbatim to the base constructor; every other
class inherits the base constructor directly.  A `none` name selects the
resolved constructor's default. -/
def construct (k : BodyKind) (mass : ℚ) (position velocity : Option PyVal)
    (name : Option String) (rng : ℕ → ℚ) :
    Except InitError (SolarSystemObject × ℕ) :=
  match k with
  | .star =>
      SolarSystemObject.init mass (some (.arr [0, 0])) (some (.arr [0, 0]))
        (name.getD "Star") rng
  | k =>
      SolarSystemObject.init mass position velocity (name.getD (defaultName k)) rng

/-- Error channel of `universal_gravity`: Python raises
`ZeroDivisionError` when a float or int is divided by zero. -/
inductive GravError where
  | divisionByZero
deriving Repr, DecidableEq

/-- `universal_gravity(m1, m2, r, G)` from `gravity.py` invoked on
Python scalars: `G * (m1 * m2) / r**2`, where Python scalar division by
zero raises `ZeroDivisionError` (note `0**2 = 0`, so the raise happens
exactly when `r = 0`). -/
def universal_gravity (G m1 m2 r : ℚ) : Except GravError ℚ :=
  if r ^ 2 = 0 then .error .divisionByZero
  else .ok (G * (m1 * m2) / r ^ 2)

/-- An element of a NumPy float array after an element-wise operation:
finite, signed infinity, or NaN. -/
inductive NpFloat where
  | finite (x : ℚ)
  | posInf
  | negInf
  | nan
deriving Repr, DecidableEq

/-- Whether a NumPy float element is finite. -/
def NpFloat.isFinite : NpFloat → Bool
  | .finite _ => true
  | _ => false

/-- NumPy element-wise true division of a finite numerator by a finite
denominator: never raises; division by zero yields a signed infinity
(or NaN when the numerator is also zero), with only a runtime warning. -/
def npDiv (n d : ℚ) : NpFloat :=
  if d = 0 then
    if n > 0 then .posInf
    else if n < 0 then .negInf
    else .nan
  else .finite (n / d)

/-- Element-wise `G * (m1 * m2) / r**2` over arrays of equal length:
the body of `universal_gravity` under NumPy array semantics. -/
def gravityElems (G : ℚ) : List ℚ → List ℚ → List ℚ → List NpFloat
  | m1 :: t1, m2 :: t2, r :: tr =>
      npDiv (G * (m1 * m2)) (r ^ 2) :: gravityElems G t1 t2 tr
  | _, _, _ => []

/-- `universal_gravity` invoked on NumPy arrays.  The error channel is
kept to state that the array path, unlike the scalar path, never raises:
NumPy true division by zero only warns and propagates non-finite
values. -/
def universal_gravity_array (G : ℚ) (m1 m2 r : List ℚ) :
    Except GravError (List NpFloat) :=
  .ok (gravityElems G m1 m2 r)

/-- Errors raised while building a summary string:  `str.format` raises
`IndexError` when an auto-numbered placeholder has no corresponding
positional argument. -/
inductive ReprError where
  | indexError
deriving Repr, DecidableEq

/-- Python `str.format` with auto-numbered `\x7b\x7d` placeholders: the
template is given as its literal segments (one more segment than there
are placeholders), and the arguments already converted to strings.
Formatting proceeds left to right and raises `IndexError` at the first
placeholder whose positional argument is missing. -/
def formatAuto : List String → List String → Except ReprError String
  | [s], _ => .ok s
  | s :: rest, a :: args => do
      let t ← formatAuto rest args
      .ok (s ++ a ++ t)
  | _ :: _, [] => .error .indexError
  | [], _ => .ok ""

/-- Rendering of a stored field in a format placeholder (`str` of the
value).  The exact digits are irrelevant to the claims; what matters is
which argument strings exist and in what order. -/
def pyStr (q : ℚ) : String := toString q

/-- Rendering of a stored NumPy vector in a format placeholder. -/
def pyStrVec (v : List ℚ) : String := toString v

/-- The six-segment template shared by the `__repr__` of
`SolarSystemObject`, `Planet`, `Asteroid` and `Comet` (and, with a
different mass unit, `GasPlanet`, `TerrestrialPlanet`, `DwarfPlanet`):
`"...: Mass = ... UNIT, position = (..., ...) AU, velocity = (..., ...) km/s"`,
which contains six placeholders. -/
def bodyReprSegments (unit : String) : List String :=
  ["", ": Mass = ", " " ++ unit ++ ", position = (", ", ", ") AU, velocity = (",
   ", ", ") km/s"]

/-- The `__repr__` of each variant, as resolved by Python.  Every
non-`Star` variant formats a six-placeholder template with exactly four
arguments `(self.name, mass-in-unit, self.position, self.velocity)`;
`Star.__repr__` formats a two-placeholder template with two arguments. -/
def reprOf (k : BodyKind) (b : SolarSystemObject) : Except ReprError String :=
  match k with
  | .star =>
      formatAuto ["", ": Mass = ", " M_sun"] [b.name, pyStr (b.mass / M_sun)]
  | .gasPlanet =>
      formatAuto (bodyReprSegments "M_jup")
        [b.name, pyStr (b.mass / M_jup), pyStrVec b.position, pyStrVec b.velocity]
  | .terrestrialPlanet =>
      formatAuto (bodyReprSegments "M_earth")
        [b.name, pyStr (b.mass / M_earth), pyStrVec b.position, pyStrVec b.velocity]
  | .dwarfPlanet =>
      formatAuto (bodyReprSegments "M_pluto")
        [b.name, pyStr (b.mass / M_pluto), pyStrVec b.position, pyStrVec b.velocity]
  | _ =>
      formatAuto (bodyReprSegments "kg")
        [b.name, pyStr b.mass, pyStrVec b.position, pyStrVec b.velocity]

/-- Entry `i` of `gravityElems`, via `getD`: when `i` is in range for
all three input arrays it is the element-wise force value. -/
theorem gravityElems_getD (G : ℚ) :
    ∀ (m1 m2 r : List ℚ) (i : ℕ), i < m1.length → i < m2.length →
      i < r.length →
      i < (gravityElems G m1 m2 r).length ∧
      (gravityElems G m1 m2 r).getD i .nan =
        npDiv (G * (m1.getD i 0 * m2.getD i 0)) ((r.getD i 1) ^ 2) := by
  intro m1
  induction m1 with
  | nil => intro m2 r i h1; exact absurd h1 (Nat.not_lt_zero i)
  | cons a t1 ih =>
    intro m2 r i h1 h2 hr
    cases m2 with
    | nil => exact absurd h2 (Nat.not_lt_zero i)
    | cons b t2 =>
      cases r with
      | nil => exact absurd hr (Nat.not_lt_zero i)
      | cons c tr =>
        cases i with
        | zero => exact ⟨Nat.succ_pos _, rfl⟩
        | succ i =>
          obtain ⟨hl, he⟩ := ih t2 tr i (Nat.lt_of_succ_lt_succ h1)
            (Nat.lt_of_succ_lt_succ h2) (Nat.lt_of_succ_lt_succ hr)
          exact ⟨Nat.succ_lt_succ hl, he⟩

/-- NumPy division of a nonzero finite numerator by zero yields a
signed infinity. -/
theorem npDiv_zero_ne (n : ℚ) (hn : n ≠ 0) :
    npDiv n 0 = .posInf ∨ npDiv n 0 = .negInf := by
  unfold npDiv
  rw [if_pos rfl]
  rcases hn.lt_or_lt with h | h
  · rw [if_neg (not_lt.mpr h.le), if_pos h]
    exact Or.inr rfl
  · rw [if_pos h]
    exact Or.inl rfl

/-- NumPy division of any finite numerator by zero is non-finite. -/
theorem npDiv_zero_notFinite (n : ℚ) : (npDiv n 0).isFinite = false := by
  unfold npDiv
  rw [if_pos rfl]
  split_ifs <;> rfl

/-- C4: for all scalar inputs `m1, m2` and nonzero separation `r`, the
force function returns exactly `G * m1 * m2 / r^2`; in particular with
the default gravitational constant, `universal_gravity(1, 1, 1)` equals
`G`. -/
theorem universal_gravity_formula (G m1 m2 r : ℚ) (hr : r ≠ 0) :
    universal_gravity G m1 m2 r = .ok (G * m1 * m2 / r ^ 2) ∧
    universal_gravity G_default 1 1 1 = .ok G_default := by
  constructor
  · rw [universal_gravity, if_neg (pow_ne_zero 2 hr), mul_assoc]
  · norm_num [universal_gravity]

/-- Witness for `universal_gravity_formula` at `G = G_default`,
`m1 = 2`, `m2 = 5`, `r = 3`. -/
theorem universal_gravity_formula_witness :
    universal_gravity G_default 2 5 3 = .ok (G_default * 2 * 5 / 3 ^ 2) ∧
    universal_gravity G_default 1 1 1 = .ok G_default :=
  universal_gravity_formula G_default 2 5 3 (by norm_num)

/-- C5: for all scalar masses, invoking the force function with scalar
inputs and separation `r = 0` raises the division-by-zero error. -/
theorem universal_gravity_zero_sep (G m1 m2 : ℚ) :
    universal_gravity G m1 m2 0 = .error .divisionByZero := by
  simp [universal_gravity]

/-- C6: on array inputs with a zero separation entry, the force
function does not raise: it returns a list whose zero-separation entry
is non-finite, and infinite whenever the numerator is nonzero. -/
theorem universal_gravity_array_zero_sep (G : ℚ) (m1 m2 r : List ℚ)
    (i : ℕ) (h1 : i < m1.length) (h2 : i < m2.length) (hr : i < r.length)
    (hz : r.getD i 1 = 0) :
    ∃ l, universal_gravity_array G m1 m2 r = .ok l ∧ i < l.length ∧
      (l.getD i .nan).isFinite = false ∧
      (G * (m1.getD i 0 * m2.getD i 0) ≠ 0 →
        l.getD i .nan = .posInf ∨ l.getD i .nan = .negInf) := by
  obtain ⟨hl, he⟩ := gravityElems_getD G m1 m2 r i h1 h2 hr
  have h0 : ((0 : ℚ) ^ 2) = 0 := by norm_num
  refine ⟨gravityElems G m1 m2 r, rfl, hl, ?_, ?_⟩
  · rw [he, hz, h0]
    exact npDiv_zero_notFinite _
  · intro hne
    rw [he, hz, h0]
    exact npDiv_zero_ne _ hne

/-- Witness for `universal_gravity_array_zero_sep` at `G = 1`,
`m1 = [2]`, `m2 = [3]`, `r = [0]`, `i = 0`. -/
theorem universal_gravity_array_zero_sep_witness :
    ∃ l, universal_gravity_array 1 [2] [3] [0] = .ok l ∧ 0 < l.length ∧
      (l.getD 0 .nan).isFinite = false ∧
      ((1 : ℚ) * (([2] : List ℚ).getD 0 0 * ([3] : List ℚ).getD 0 0) ≠ 0 →
        l.getD 0 .nan = .posInf ∨ l.getD 0 .nan = .negInf) :=
  universal_gravity_array_zero_sep 1 [2] [3] [0] 0 (by norm_num)
    (by norm_num) (by norm_num) rfl

/-- C1 (code bug): the `__repr__` of every non-`Star` variant formats a
six-placeholder template with only four arguments, so it raises
`IndexError` instead of returning a summary string; only `Star.__repr__`
succeeds. -/
theorem repr_raises_on_nonstar :
    reprOf .object ⟨200, [1, 2], [3, 4], "Object"⟩ = .error .indexError ∧
    reprOf .planet ⟨200, [1, 2], [3, 4], "Planet"⟩ = .error .indexError ∧
    reprOf .gasPlanet ⟨200, [1, 2], [3, 4], "Jupiter"⟩ = .error .indexError ∧
    reprOf .terrestrialPlanet ⟨200, [1, 2], [3, 4], "Earth"⟩ =
      .error .indexError ∧
    reprOf .dwarfPlanet ⟨200, [1, 2], [3, 4], "Pluto"⟩ = .error .indexError ∧
    reprOf .asteroid ⟨200, [1, 2], [3, 4], "Asteroid"⟩ = .error .indexError ∧
    reprOf .comet ⟨200, [1, 2], [3, 4], "Comet"⟩ = .error .indexError ∧
    ∃ s, reprOf .star ⟨M_sun, [0, 0], [0, 0], "Star"⟩ = .ok s :=
  ⟨rfl, rfl, rfl, rfl, rfl, rfl, rfl, _, rfl⟩

/-- C2 (counterexample): at the moment the shape error is raised for a
1-component position, `self.mass` — and the offending `self.position`
itself — have already been assigned, so the object's state is not
entirely unassigned. -/
theorem initTrace_state_at_raise :
    ∃ s : ObjState,
      initTrace 200 (some (.arr [2])) (some (.arr [20, 30])) "Object"
          (fun _ => 0) =
        .error (.invalidVectorShape "position", s) ∧
      s.mass = some 200 ∧ s.position = some [2] :=
  ⟨⟨some 200, some [2], none, none⟩, rfl, rfl, rfl⟩

/-- C2 (amended): a too-short supplied position or velocity makes
construction fail with `InvalidVectorShape`; the error is raised before
`name` is assigned (and, for a bad position, before velocity is
processed), but `mass` and the offending converted array itself are
already assigned at that moment. -/
theorem initTrace_raise_midstate (mass : ℚ) (name : String) (rng : ℕ → ℚ) :
    (∀ (pv : PyVal) (velocity : Option PyVal), (asarray pv).length < 2 →
      initTrace mass (some pv) velocity name rng =
        .error (.invalidVectorShape "position",
          ⟨some mass, some (asarray pv), none, none⟩)) ∧
    (∀ pv vv : PyVal, 2 ≤ (asarray pv).length → (asarray vv).length < 2 →
      initTrace mass (some pv) (some vv) name rng =
        .error (.invalidVectorShape "velocity",
          ⟨some mass, some (asarray pv), some (asarray vv), none⟩)) ∧
    (∀ vv : PyVal, (asarray vv).length < 2 →
      initTrace mass none (some vv) name rng =
        .error (.invalidVectorShape "velocity",
          ⟨some mass,
           some (sampleVec MINIMUM_SIZE MAXIMUM_SIZE (rng 0) (rng 1)),
           some (asarray vv), none⟩)) := by
  refine ⟨?_, ?_, ?_⟩
  · intro pv velocity h
    simp only [initTrace]
    rw [if_pos h]
  · intro pv vv hp hv
    simp only [initTrace]
    rw [if_neg (not_lt.mpr hp), if_pos hv]
  · intro vv hv
    simp only [initTrace]
    rw [if_pos hv]

/-- Witness for `initTrace_raise_midstate` at concrete inputs: a
1-component position, a 1-component velocity behind a valid position,
and a scalar velocity with the position omitted. -/
theorem initTrace_raise_midstate_witness :
    initTrace 200 (some (.arr [2])) (some (.arr [20, 30])) "Object"
        (fun _ => 0) =
      .error (.invalidVectorShape "position",
        ⟨some 200, some [2], none, none⟩) ∧
    initTrace 200 (some (.arr [2, 6])) (some (.arr [20])) "Object"
        (fun _ => 0) =
      .error (.invalidVectorShape "velocity",
        ⟨some 200, some [2, 6], some [20], none⟩) ∧
    initTrace 200 none (some (.scalar 20)) "Object" (fun _ => 0) =
      .error (.invalidVectorShape "velocity",
        ⟨some 200, some (sampleVec MINIMUM_SIZE MAXIMUM_SIZE 0 0),
         some [20], none⟩) :=
  ⟨(initTrace_raise_midstate 200 "Object" (fun _ => 0)).1 (.arr [2])
      (some (.arr [20, 30])) (by norm_num [asarray]),
   (initTrace_raise_midstate 200 "Object" (fun _ => 0)).2.1 (.arr [2, 6])
      (.arr [20]) (by norm_num [asarray]) (by norm_num [asarray]),
   (initTrace_raise_midstate 200 "Object" (fun _ => 0)).2.2 (.scalar 20)
      (by norm_num [asarray])⟩

/-- C3: for every non-`Star` variant, a scalar or 1-component position
raises `InvalidVectorShape`, the symmetric velocity cases raise it too,
and an omitted field never raises it. -/
theorem nonstar_vector_shape_errors (k : BodyKind) (hk : k ≠ .star)
    (mass x : ℚ) (name : Option String) (rng : ℕ → ℚ) :
    construct k mass (some (.scalar x)) (some (.arr [20, 30])) name rng =
      .error (.invalidVectorShape "position") ∧
    construct k mass (some (.arr [x])) (some (.arr [20, 30])) name rng =
      .error (.invalidVectorShape "position") ∧
    construct k mass (some (.arr [2, 6])) (some (.scalar x)) name rng =
      .error (.invalidVectorShape "velocity") ∧
    construct k mass (some (.arr [2, 6])) (some (.arr [x])) name rng =
      .error (.invalidVectorShape "velocity") ∧
    (∃ b n, construct k mass none none name rng = .ok (b, n)) ∧
    (∃ b n, construct k mass (some (.arr [2, 6])) none name rng = .ok (b, n)) ∧
    (∃ b n, construct k mass none (some (.arr [20, 30])) name rng =
      .ok (b, n)) := by
  cases k with
  | star => exact absurd rfl hk
  | object =>
      exact ⟨rfl, rfl, rfl, rfl, ⟨_, _, rfl⟩, ⟨_, _, rfl⟩, ⟨_, _, rfl⟩⟩
  | planet =>
      exact ⟨rfl, rfl, rfl, rfl, ⟨_, _, rfl⟩, ⟨_, _, rfl⟩, ⟨_, _, rfl⟩⟩
  | gasPlanet =>
      exact ⟨rfl, rfl, rfl, rfl, ⟨_, _, rfl⟩, ⟨_, _, rfl⟩, ⟨_, _, rfl⟩⟩
  | terrestrialPlanet =>
      exact ⟨rfl, rfl, rfl, rfl, ⟨_, _, rfl⟩, ⟨_, _, rfl⟩, ⟨_, _, rfl⟩⟩
  | dwarfPlanet =>
      exact ⟨rfl, rfl, rfl, rfl, ⟨_, _, rfl⟩, ⟨_, _, rfl⟩, ⟨_, _, rfl⟩⟩
  | asteroid =>
      exact ⟨rfl, rfl, rfl, rfl, ⟨_, _, rfl⟩, ⟨_, _, rfl⟩, ⟨_, _, rfl⟩⟩
  | comet =>
      exact ⟨rfl, rfl, rfl, rfl, ⟨_, _, rfl⟩, ⟨_, _, rfl⟩, ⟨_, _, rfl⟩⟩

/-- Witness for `nonstar_vector_shape_errors` at the `Comet` variant
with `mass = 200` and scalar / 1-component offending values. -/
theorem nonstar_vector_shape_errors_witness :
    construct .comet 200 (some (.scalar 2)) (some (.arr [20, 30])) none
        (fun _ => 0) =
      .error (.invalidVectorShape "position") ∧
    construct .comet 200 (some (.arr [2])) (some (.arr [20, 30])) none
        (fun _ => 0) =
      .error (.invalidVectorShape "position") ∧
    construct .comet 200 (some (.arr [2, 6])) (some (.scalar 2)) none
        (fun _ => 0) =
      .error (.invalidVectorShape "velocity") ∧
    construct .comet 200 (some (.arr [2, 6])) (some (.arr [2])) none
        (fun _ => 0) =
      .error (.invalidVectorShape "velocity") ∧
    (∃ b n, construct .comet 200 none none none (fun _ => 0) = .ok (b, n)) ∧
    (∃ b n, construct .comet 200 (some (.arr [2, 6])) none none (fun _ => 0) =
      .ok (b, n)) ∧
    (∃ b n, construct .comet 200 none (some (.arr [20, 30])) none
        (fun _ => 0) = .ok (b, n)) :=
  nonstar_vector_shape_errors .comet (by decide) 200 2 none (fun _ => 0)

/-- C7: `Star` construction always stores the zero 2-vector for both
position and velocity and consumes no random draws (the random-default
path is never taken), for any mass and name. -/
theorem star_zero_vectors (mass : ℚ) (position velocity : Option PyVal)
    (name : Option String) (rng : ℕ → ℚ) :
    construct .star mass position velocity name rng =
      .ok (⟨mass, [0, 0], [0, 0], name.getD "Star"⟩, 0) := rfl

/-- C8 (code bug): `Planet` defines `__index__` instead of `__init__`,
so a `Planet` constructed without a name gets the inherited default
`"Object"`, not the documented `"Planet"`. -/
theorem planet_default_name_is_object :
    (construct .planet 1 none none none (fun _ => 0)).toOption.map
        (fun p => p.1.name) = some "Object" ∧
    defaultName .planet ≠ "Planet" := by
  exact ⟨rfl, by decide⟩

/-- Each component of a defaulted vector lies within the configured
closed range, given draws in `[0, 1)`. -/
theorem sampleVec_mem_range (lo hi u0 u1 : ℚ) (hlh : lo ≤ hi)
    (h0 : 0 ≤ u0 ∧ u0 < 1) (h1 : 0 ≤ u1 ∧ u1 < 1) :
    ∀ x ∈ sampleVec lo hi u0 u1, lo ≤ x ∧ x ≤ hi := by
  intro x hx
  simp only [sampleVec, List.mem_cons, List.mem_singleton,
    List.not_mem_nil, or_false] at hx
  rcases hx with h | h <;> subst h <;> constructor <;>
    nlinarith [h0.1, h0.2, h1.1, h1.2]

/-- C9: a body constructed without explicit position and velocity gets
vectors whose axes all lie within `[MINIMUM_SIZE, MAXIMUM_SIZE]` and
`[MINIMUM_VELOCITY, MAXIMUM_VELOCITY]` respectively, provided every
uniform draw lies in `[0, 1)`. -/
theorem default_vectors_in_range (mass : ℚ) (name : String) (rng : ℕ → ℚ)
    (hrng : ∀ n, 0 ≤ rng n ∧ rng n < 1) :
    ∃ b k, SolarSystemObject.init mass none none name rng = .ok (b, k) ∧
      (∀ x ∈ b.position, MINIMUM_SIZE ≤ x ∧ x ≤ MAXIMUM_SIZE) ∧
      (∀ x ∈ b.velocity, MINIMUM_VELOCITY ≤ x ∧ x ≤ MAXIMUM_VELOCITY) := by
  refine ⟨⟨mass, sampleVec MINIMUM_SIZE MAXIMUM_SIZE (rng 0) (rng 1),
           sampleVec MINIMUM_VELOCITY MAXIMUM_VELOCITY (rng 2) (rng 3),
           name⟩, 4, rfl, ?_, ?_⟩
  · exact sampleVec_mem_range _ _ _ _
      (by norm_num [MINIMUM_SIZE, MAXIMUM_SIZE]) (hrng 0) (hrng 1)
  · exact sampleVec_mem_range _ _ _ _
      (by norm_num [MINIMUM_VELOCITY, MAXIMUM_VELOCITY]) (hrng 2) (hrng 3)

/-- Witness for `default_vectors_in_range` with the constant draw
stream `0`. -/
theorem default_vectors_in_range_witness :
    ∃ b k, SolarSystemObject.init 1 none none "Object"
        (fun _ => (0 : ℚ)) = .ok (b, k) ∧
      (∀ x ∈ b.position, MINIMUM_SIZE ≤ x ∧ x ≤ MAXIMUM_SIZE) ∧
      (∀ x ∈ b.velocity, MINIMUM_VELOCITY ≤ x ∧ x ≤ MAXIMUM_VELOCITY) :=
  default_vectors_in_range 1 "Object" (fun _ => 0)
    (fun _ => ⟨le_refl 0, by norm_num⟩)

/-- C10: an explicitly supplied position or velocity of size at least 2
(3-component vectors included) is accepted and stored as the converted
array, unchanged; construction errors only when a supplied field has
size strictly less than 2. -/
theorem explicit_vectors_stored (mass : ℚ) (pv vv : PyVal) (name : String)
    (rng : ℕ → ℚ) :
    (2 ≤ (asarray pv).length → 2 ≤ (asarray vv).length →
      SolarSystemObject.init mass (some pv) (some vv) name rng =
        .ok (⟨mass, asarray pv, asarray vv, name⟩, 0)) ∧
    (∀ e, SolarSystemObject.init mass (some pv) (some vv) name rng =
        .error e →
      (asarray pv).length < 2 ∨ (asarray vv).length < 2) := by
  have hok : 2 ≤ (asarray pv).length → 2 ≤ (asarray vv).length →
      SolarSystemObject.init mass (some pv) (some vv) name rng =
        .ok (⟨mass, asarray pv, asarray vv, name⟩, 0) := by
    intro hp hv
    simp only [SolarSystemObject.init, initTrace]
    rw [if_neg (not_lt.mpr hp), if_neg (not_lt.mpr hv)]
    rfl
  refine ⟨hok, ?_⟩
  intro e he
  rcases Nat.lt_or_ge (asarray pv).length 2 with h | h
  · exact Or.inl h
  rcases Nat.lt_or_ge (asarray vv).length 2 with h2 | h2
  · exact Or.inr h2
  rw [hok h h2] at he
  exact Except.noConfusion he

/-- Witness for `explicit_vectors_stored`: a 3-component position and a
2-component velocity are accepted and stored unchanged. -/
theorem explicit_vectors_stored_witness :
    SolarSystemObject.init 200 (some (.arr [1, 2, 3])) (some (.arr [4, 5]))
        "Object" (fun _ => 0) =
      .ok (⟨200, asarray (.arr [1, 2, 3]), asarray (.arr [4, 5]),
            "Object"⟩, 0) :=
  (explicit_vectors_stored 200 (.arr [1, 2, 3]) (.arr [4, 5]) "Object"
      (fun _ => 0)).1 (by norm_num [asarray]) (by norm_num [asarray])
